import Mathlib

/-!
Shallow embedding of the Prompt Lifecycle Manager (the versioned prompt
registry of this repository): key derivation, the file-backed store, and
the Entry lifecycle operations `save_draft`, `curate_prompt`, `log_run`,
`rollback`, together with theorems settling the spec claims.

Modelling conventions:
- Python `float` values (confidence, averages) are embedded as exact
  rationals `ℚ`; the literal `0.6` is the rational `3/5`.
- `datetime.now().isoformat()` is an explicit `now : String` parameter.
- The JSON store's `prompts` dict is an association list
  `List (String × Entry)`; dict lookup and assignment are `lookupP` and
  `insertP`.
- Python exceptions (`ValueError` with distinct messages) are the
  `LifecycleErr` type; an operation that can raise returns the post-state
  of the store together with `Except LifecycleErr Entry`, and on an error
  the store is the unchanged input (the source raises before it writes).
-/

namespace PromptLifecycle

/-! ### Key derivation (`_domain_key`) -/

/-- ASCII whitespace stripped by Python `str.strip()` (the tags in this
repository are ASCII). -/
def pyIsSpace (c : Char) : Bool :=
  c = ' ' || c = '\t' || c = '\n' || c = '\x0d' || c = '\x0b' || c = '\x0c'

/-- Python `str.strip()`: drop leading and trailing whitespace. -/
def pyStrip (s : String) : String :=
  ⟨((s.data.dropWhile pyIsSpace).reverse.dropWhile pyIsSpace).reverse⟩

/-- One tag of `_domain_key`'s generator: `d.strip().lower().replace(" ", "_")`. -/
def normalizeTag (d : String) : String :=
  ⟨((pyStrip d).data.map Char.toLower).map (fun c => if c = ' ' then '_' else c)⟩

/-- Python `sorted` on strings: lexicographic by code points. Any correct
sort of a linear order produces the same list, so insertion sort models it. -/
def pySorted (l : List String) : List String :=
  l.insertionSort (· ≤ ·)

/-- UTF-8 encoding of one character, as byte values. -/
def utf8Bytes (c : Char) : List Nat :=
  let n := c.toNat
  if n < 128 then [n]
  else if n < 2048 then [192 + n / 64, 128 + n % 64]
  else if n < 65536 then [224 + n / 4096, 128 + n / 64 % 64, 128 + n % 64]
  else [240 + n / 262144, 128 + n / 4096 % 64, 128 + n / 64 % 64, 128 + n % 64]

/-- UTF-8 encoding of a string (Python `str.encode()`). -/
def strBytes (s : String) : List Nat :=
  s.data.foldr (fun c acc => utf8Bytes c ++ acc) []

/-! MD5 (RFC 1321), as used by `hashlib.md5(...).hexdigest()`.
32-bit words are `Nat` reduced mod 2^32. -/

def w32 (n : Nat) : Nat := n % 4294967296

/-- 32-bit left rotation. -/
def rotl32 (x s : Nat) : Nat := w32 (x * 2 ^ s) + x / 2 ^ (32 - s)

/-- The 64 MD5 sine-derived constants. -/
def md5K : List Nat :=
  [0xd76aa478, 0xe8c7b756, 0x242070db, 0xc1bdceee,
   0xf57c0faf, 0x4787c62a, 0xa8304613, 0xfd469501,
   0x698098d8, 0x8b44f7af, 0xffff5bb1, 0x895cd7be,
   0x6b901122, 0xfd987193, 0xa679438e, 0x49b40821,
   0xf61e2562, 0xc040b340, 0x265e5a51, 0xe9b6c7aa,
   0xd62f105d, 0x02441453, 0xd8a1e681, 0xe7d3fbc8,
   0x21e1cde6, 0xc33707d6, 0xf4d50d87, 0x455a14ed,
   0xa9e3e905, 0xfcefa3f8, 0x676f02d9, 0x8d2a4c8a,
   0xfffa3942, 0x8771f681, 0x6d9d6122, 0xfde5380c,
   0xa4beea44, 0x4bdecfa9, 0xf6bb4b60, 0xbebfbc70,
   0x289b7ec6, 0xeaa127fa, 0xd4ef3085, 0x04881d05,
   0xd9d4d039, 0xe6db99e5, 0x1fa27cf8, 0xc4ac5665,
   0xf4292244, 0x432aff97, 0xab9423a7, 0xfc93a039,
   0x655b59c3, 0x8f0ccc92, 0xffeff47d, 0x85845dd1,
   0x6fa87e4f, 0xfe2ce6e0, 0xa3014314, 0x4e0811a1,
   0xf7537e82, 0xbd3af235, 0x2ad7d2bb, 0xeb86d391]

/-- The 64 MD5 per-round shift amounts. -/
def md5S : List Nat :=
  [7, 12, 17, 22, 7, 12, 17, 22, 7, 12, 17, 22, 7, 12, 17, 22,
   5, 9, 14, 20, 5, 9, 14, 20, 5, 9, 14, 20, 5, 9, 14, 20,
   4, 11, 16, 23, 4, 11, 16, 23, 4, 11, 16, 23, 4, 11, 16, 23,
   6, 10, 15, 21, 6, 10, 15, 21, 6, 10, 15, 21, 6, 10, 15, 21]

/-- MD5 round functions F, G, H, I selected by step index. -/
def md5F (i b c d : Nat) : Nat :=
  if i < 16 then (b &&& c) ||| ((b ^^^ 4294967295) &&& d)
  else if i < 32 then (d &&& b) ||| ((d ^^^ 4294967295) &&& c)
  else if i < 48 then b ^^^ c ^^^ d
  else c ^^^ (b ||| (d ^^^ 4294967295))

/-- MD5 message-word index per step. -/
def md5G (i : Nat) : Nat :=
  if i < 16 then i
  else if i < 32 then (5 * i + 1) % 16
  else if i < 48 then (3 * i + 5) % 16
  else (7 * i) % 16

/-- Little-endian byte decomposition, `k` bytes. -/
def toLE (k n : Nat) : List Nat :=
  (List.range k).map (fun i => n / 256 ^ i % 256)

/-- Little-endian byte recomposition. -/
def fromLE (bs : List Nat) : Nat :=
  bs.foldr (fun b acc => b + 256 * acc) 0

/-- MD5 padding: append 0x80, zero-pad to 56 mod 64 bytes, then the
original length in bits as 64-bit little-endian. -/
def md5pad (msg : List Nat) : List Nat :=
  msg ++ [128] ++ List.replicate ((119 - msg.length % 64) % 64) 0
      ++ toLE 8 (msg.length * 8 % 2 ^ 64)

/-- Split into 64-byte blocks (the input length is a multiple of 64). -/
def chunks64 (l : List Nat) : List (List Nat) :=
  (List.range (l.length / 64)).map (fun i => (l.drop (64 * i)).take 64)

/-- The 16 little-endian 32-bit words of one block. -/
def blockWords (b : List Nat) : List Nat :=
  (List.range 16).map (fun i => fromLE ((b.drop (4 * i)).take 4))

/-- One MD5 step on state (A, B, C, D). -/
def md5Step (M : List Nat) (st : Nat × Nat × Nat × Nat) (i : Nat) :
    Nat × Nat × Nat × Nat :=
  let (a, b, c, d) := st
  let f := w32 (md5F i b c d + a + md5K.getD i 0 + M.getD (md5G i) 0)
  (d, w32 (b + rotl32 f (md5S.getD i 0)), b, c)

/-- MD5 compression of one 64-byte block. -/
def md5Compress (st : Nat × Nat × Nat × Nat) (block : List Nat) :
    Nat × Nat × Nat × Nat :=
  let (a2, b2, c2, d2) := (List.range 64).foldl (md5Step (blockWords block)) st
  (w32 (st.1 + a2), w32 (st.2.1 + b2), w32 (st.2.2.1 + c2), w32 (st.2.2.2 + d2))

/-- A byte value's low or high nibble as a lowercase hex digit. -/
def hexDigit (n : Nat) : Char :=
  if n < 10 then Char.ofNat (48 + n) else Char.ofNat (87 + n)

/-- Lowercase hex rendering of a byte list. -/
def hexOfBytes (bs : List Nat) : String :=
  ⟨bs.foldr (fun b acc => hexDigit (b / 16) :: hexDigit (b % 16) :: acc) []⟩

/-- `hashlib.md5(bytes).hexdigest()`. -/
def md5hex (msg : List Nat) : String :=
  let st := (chunks64 (md5pad msg)).foldl md5Compress
    (0x67452301, 0xefcdab89, 0x98badcfe, 0x10325476)
  hexOfBytes (toLE 4 st.1 ++ toLE 4 st.2.1 ++ toLE 4 st.2.2.1 ++ toLE 4 st.2.2.2)

/-- `_domain_key`: normalize each tag, sort, join with `"|"`, MD5, keep the
first 12 hex characters. -/
def _domain_key (domains : List String) : String :=
  let normalized := pySorted (domains.map normalizeTag)
  (md5hex (strBytes (String.intercalate "|" normalized))).take 12

/-! ### Data model -/

/-- The `performance` dict of an Entry. `avg_confidence` is a Python float,
embedded as an exact rational. `last_regime` is absent from the dict that
`save_draft` creates; since the source only ever reads it with
`perf.get("last_regime")`, an absent key and `None` are observationally
equal and both are `none`. -/
structure Perf where
  runs : Nat
  avg_confidence : ℚ
  regime_changes : Nat
  conflicts_detected : Nat
  last_run : Option String
  last_regime : Option String
deriving DecidableEq, Repr

/-- One archived `history` element: `{version, system_prompt, status, saved_at}`. -/
structure Snapshot where
  version : Nat
  system_prompt : String
  status : String
  saved_at : String
deriving DecidableEq, Repr

/-- A prompt-library Entry. `status` is the string tag the source stores
("draft" / "evolving" / "curated"). -/
structure Entry where
  key : String
  status : String
  system_prompt : String
  version : Nat
  domains : List String
  user_intent : String
  generated_by : String
  created_at : String
  updated_at : String
  curated_at : Option String
  curated_by : Option String
  performance : Perf
  human_notes : String
  history : List Snapshot
deriving DecidableEq, Repr

/-- The `prompts` mapping of the persisted library, as an association list. -/
abbrev Lib : Type := List (String × Entry)

/-- Python dict lookup `lib["prompts"].get(key)`. -/
def lookupP : Lib → String → Option Entry
  | [], _ => none
  | (k, e) :: rest, key => if k = key then some e else lookupP rest key

/-- Python dict assignment `lib["prompts"][key] = entry`. -/
def insertP : Lib → String → Entry → Lib
  | [], key, e => [(key, e)]
  | (k, e0) :: rest, key, e =>
      if k = key then (key, e) :: rest else (k, e0) :: insertP rest key e

/-- Python slice `l[-n:]`: the last `n` elements. -/
def lastN (n : Nat) (l : List α) : List α :=
  l.drop (l.length - n)

/-- The default `performance` dict installed by `save_draft` for a new Entry. -/
def freshPerf : Perf :=
  { runs := 0, avg_confidence := 0, regime_changes := 0,
    conflicts_detected := 0, last_run := none, last_regime := none }

/-- Python truthiness of an `Optional[str]`: `None` and `""` are falsy. -/
def pyTruthyOptStr : Option String → Bool
  | none => false
  | some s => s ≠ ""

/-- Errors raised by the lifecycle operations (`ValueError` in the source,
with the messages the spec names `NotFound` and `VersionNotFound`). -/
inductive LifecycleErr where
  | NotFound (domains : List String)
  | VersionNotFound (version : Nat)
deriving DecidableEq, Repr

/-! ### Lifecycle operations (`save_draft`, `curate_prompt`, `log_run`,
`rollback`) -/

/-- `save_draft(domains, system_prompt, user_intent, generated_by)`:
returns the post-mutation library (what `_save_library` persists) and the
returned Entry. A curated Entry is returned unchanged without writing. -/
def save_draft (lib : Lib) (domains : List String)
    (system_prompt user_intent generated_by now : String) : Lib × Entry :=
  let key := _domain_key domains
  match lookupP lib key with
  | some existing =>
      if existing.status = "curated" then (lib, existing)
      else
        let history := lastN 10 (existing.history ++
          [{ version := existing.version, system_prompt := existing.system_prompt,
             status := existing.status, saved_at := now }])
        let entry : Entry :=
          { key := key, status := "draft", system_prompt := system_prompt,
            version := existing.version + 1, domains := pySorted domains,
            user_intent := user_intent, generated_by := generated_by,
            created_at := existing.created_at, updated_at := now,
            curated_at := none, curated_by := none,
            performance := existing.performance,
            human_notes := existing.human_notes, history := history }
        (insertP lib key entry, entry)
  | none =>
      let entry : Entry :=
        { key := key, status := "draft", system_prompt := system_prompt,
          version := 1, domains := pySorted domains,
          user_intent := user_intent, generated_by := generated_by,
          created_at := now, updated_at := now,
          curated_at := none, curated_by := none,
          performance := freshPerf, human_notes := "", history := [] }
      (insertP lib key entry, entry)

/-- `curate_prompt(domains, edited_prompt, curator, notes)`. The
`if edited_prompt:` guard is Python truthiness: `None` and `""` both skip
the text replacement. On `NotFound` the library is returned unchanged (the
source raises before mutating). -/
def curate_prompt (lib : Lib) (domains : List String)
    (edited_prompt : Option String) (curator notes now : String) :
    Lib × Except LifecycleErr Entry :=
  let key := _domain_key domains
  match lookupP lib key with
  | none => (lib, .error (.NotFound domains))
  | some entry =>
      let e1 : Entry := { entry with
        history := lastN 10 (entry.history ++
          [{ version := entry.version, system_prompt := entry.system_prompt,
             status := entry.status, saved_at := now }]) }
      let e2 : Entry :=
        if pyTruthyOptStr edited_prompt then
          { e1 with system_prompt := edited_prompt.getD e1.system_prompt }
        else e1
      let e3 : Entry := { e2 with
        status := "curated", version := e2.version + 1,
        curated_at := some now, curated_by := some curator,
        updated_at := now,
        human_notes := if notes ≠ "" then notes else e2.human_notes }
      (insertP lib key e3, .ok e3)

/-- The running-average update of `log_run`:
`(avg_confidence * (n - 1) + confidence) / n` with `n = runs + 1`. -/
def newAvg (p : Perf) (confidence : ℚ) : ℚ :=
  (p.avg_confidence * (((p.runs + 1 : Nat) : ℚ) - 1) + confidence) /
    ((p.runs + 1 : Nat) : ℚ)

/-- The performance-counter updates of `log_run` (lines 226-241): increment
`runs`, running average, regime-change and conflict counters, stamps. -/
def logRunPerf (perf : Perf) (confidence : ℚ) (regime : String)
    (conflicts : List String) (now : String) : Perf :=
  { runs := perf.runs + 1,
    avg_confidence := newAvg perf confidence,
    regime_changes :=
      if pyTruthyOptStr perf.last_regime = true ∧
          perf.last_regime ≠ some regime
      then perf.regime_changes + 1 else perf.regime_changes,
    conflicts_detected :=
      if conflicts ≠ [] then perf.conflicts_detected + 1
      else perf.conflicts_detected,
    last_run := some now, last_regime := some regime }

/-- The Entry update of one `log_run` call: new performance counters, and
the auto-promotion `draft → evolving` when `runs >= 20` and
`avg_confidence > 0.6` (the float literal `0.6`, embedded as `3/5`). -/
def logRunEntry (entry : Entry) (confidence : ℚ) (regime : String)
    (conflicts : List String) (now : String) : Entry :=
  let perf2 := logRunPerf entry.performance confidence regime conflicts now
  if entry.status = "draft" ∧ perf2.runs ≥ 20 ∧ perf2.avg_confidence > 3 / 5
  then { entry with status := "evolving", performance := perf2 }
  else { entry with performance := perf2 }

/-- `log_run(domains, confidence, regime, conflicts)`: silently a no-op
when no Entry exists; otherwise updates the performance counters and
possibly auto-promotes, then persists. -/
def log_run (lib : Lib) (domains : List String) (confidence : ℚ)
    (regime : String) (conflicts : List String) (now : String) : Lib :=
  let key := _domain_key domains
  match lookupP lib key with
  | none => lib
  | some entry =>
      insertP lib key (logRunEntry entry confidence regime conflicts now)

/-- A sequence of `log_run` calls with confidence values `cs` (other
arguments held fixed; they do not interact with the average). -/
def log_run_fold (lib : Lib) (domains : List String) (cs : List ℚ)
    (regime : String) (conflicts : List String) (now : String) : Lib :=
  cs.foldl (fun l c => log_run l domains c regime conflicts now) lib

/-- The first history element with the requested version (the source's
`for h in entry.get("history", [])` loop). -/
def findSnap (history : List Snapshot) (to_version : Nat) : Option Snapshot :=
  history.find? (fun h => h.version == to_version)

/-- `rollback(domains, to_version)`. Note: the pre-rollback snapshot is
appended to `history` without the `[-10:]` trim the other mutations apply.
On an error the library is returned unchanged (the source raises before
mutating). -/
def rollback (lib : Lib) (domains : List String) (to_version : Nat)
    (now : String) : Lib × Except LifecycleErr Entry :=
  let key := _domain_key domains
  match lookupP lib key with
  | none => (lib, .error (.NotFound domains))
  | some entry =>
      match findSnap entry.history to_version with
      | none => (lib, .error (.VersionNotFound to_version))
      | some target =>
          let entry2 : Entry := { entry with
            history := entry.history ++
              [{ version := entry.version, system_prompt := entry.system_prompt,
                 status := entry.status, saved_at := now }],
            system_prompt := target.system_prompt,
            version := entry.version + 1,
            status := target.status,
            updated_at := now }
          (insertP lib key entry2, .ok entry2)

/-! ### Store write path (`_save_library`) — file-system effect model -/

/-- The default persisted-store location (line 25; the environment override
only changes the string, not the write pattern). -/
def LIBRARY_PATH : String := "/app/data/prompt_library.json"

/-- `Path(p).parent` for a slash-separated path. -/
def parentDir (p : String) : String :=
  ⟨(((p.data.reverse.dropWhile (fun c => c ≠ '/')).drop 1).reverse)⟩

/-- One file-system effect of the store's write path. `writeData` carries
the document being serialized into the currently open file (the textual
JSON rendering is irrelevant to the claims about this path). -/
inductive FsOp where
  | mkdirParents (path : String)
  | openTrunc (path : String)
  | writeData (doc : Lib)
  | closeFile
deriving DecidableEq, Repr

/-- File-system effect trace of `_save_library(lib)` (lines 40-45):
`path.parent.mkdir(parents=True, exist_ok=True)`, then `open(path, "w")` —
which truncates the target in place — then `json.dump` into the open file,
then close. There is no temporary file and no rename. -/
def _save_library_trace (lib : Lib) : List FsOp :=
  [.mkdirParents (parentDir LIBRARY_PATH), .openTrunc LIBRARY_PATH,
   .writeData lib, .closeFile]

/-- Observable content of the target file: absent, a fully written
document, or truncated (opened with mode "w" and the document not yet
completely written — a partially-written file). -/
inductive FileState where
  | absent
  | truncated
  | doc (lib : Lib)
deriving DecidableEq, Repr

/-- Content of the file at `target` after executing a trace, starting from
content `init` with no file open. `open(p, "w")` erases `p` at once;
the subsequent write completes the document into the open file. -/
def runFsTarget (target : String) (init : FileState) (tr : List FsOp) :
    FileState :=
  (tr.foldl
    (fun st op =>
      match op with
      | .mkdirParents _ => st
      | .openTrunc p => (some p, if p = target then .truncated else st.2)
      | .writeData d => (st.1, if st.1 = some target then .doc d else st.2)
      | .closeFile => (none, st.2))
    ((none : Option String), init)).2

/-- Modelled from the spec: a write trace is an atomic replace of `target`
(from document `old` to document `new`) when a crash at any point — i.e.
after executing any prefix of the trace — leaves the target holding either
the old or the new document in full, never a partially-written file. -/
def crashSafeReplace (target : String) (old new : FileState)
    (tr : List FsOp) : Prop :=
  ∀ k, runFsTarget target old (tr.take k) = old ∨
       runFsTarget target old (tr.take k) = new

/-! ### Concrete values used by the closed theorems -/

/-- A concrete Entry for concrete-input theorems: the state right after a
first `save_draft` (fresh performance counters, empty history). -/
def baseEntry : Entry :=
  { key := "k0", status := "draft", system_prompt := "p0", version := 1,
    domains := ["x"], user_intent := "intent", generated_by := "auto",
    created_at := "t0", updated_at := "t0", curated_at := none,
    curated_by := none, performance := freshPerf, human_notes := "",
    history := [] }

/-- Ten archived snapshots, versions 1..10 — the history of an Entry that
has been mutated often enough to fill the cap. -/
def tenSnaps : List Snapshot :=
  (List.range 10).map (fun i =>
    ({ version := i + 1, system_prompt := "p", status := "draft",
       saved_at := "t" } : Snapshot))

/-- A concrete Entry whose curation stamps are set while its status is
`draft` — the state a curated Entry reaches after `rollback` to a `draft`
snapshot (rollback restores `status` but never touches
`curated_at`/`curated_by`). -/
def entryC8 : Entry :=
  { baseEntry with
    version := 3,
    status := "draft",
    curated_at := some "t1",
    curated_by := some "alice" }

/-! ### Helper lemmas -/

theorem lookupP_insertP_self (lib : Lib) (key : String) (e : Entry) :
    lookupP (insertP lib key e) key = some e := by
  induction lib with
  | nil => simp [insertP, lookupP]
  | cons p rest ih =>
      obtain ⟨k, e0⟩ := p
      by_cases h : k = key <;> simp [insertP, lookupP, h, ih]

theorem mem_lastN {l : List α} {n : Nat} {x : α} (h : x ∈ lastN n l) :
    x ∈ l :=
  List.drop_subset _ _ h

theorem newAvg_mul (p : Perf) (c : ℚ) :
    newAvg p c * ((p.runs + 1 : Nat) : ℚ) =
      p.avg_confidence * (p.runs : ℚ) + c := by
  have hn : ((p.runs + 1 : Nat) : ℚ) ≠ 0 := by
    exact_mod_cast Nat.succ_ne_zero p.runs
  unfold newAvg
  rw [div_mul_cancel₀ _ hn]
  push_cast
  ring

/-! ### Claim theorems -/

/-- C1: for every Entry whose status is `curated`, `save_draft` on the same
Key is a no-op — it returns the existing Entry verbatim and leaves the
library (hence every field of the Entry) unchanged. -/
theorem save_draft_curated_noop (lib : Lib) (domains : List String)
    (sp ui gb now : String) (e : Entry)
    (hl : lookupP lib (_domain_key domains) = some e)
    (hc : e.status = "curated") :
    save_draft lib domains sp ui gb now = (lib, e) := by
  simp [save_draft, hl, hc]

/-- C1 witness: a concrete curated Entry is returned unchanged. -/
theorem save_draft_curated_noop_witness :
    lookupP [(_domain_key ["x"], { baseEntry with status := "curated" })]
        (_domain_key ["x"]) = some { baseEntry with status := "curated" } ∧
    save_draft [(_domain_key ["x"], { baseEntry with status := "curated" })]
        ["x"] "new text" "ui" "auto" "t1" =
      ([(_domain_key ["x"], { baseEntry with status := "curated" })],
        { baseEntry with status := "curated" }) :=
  ⟨by simp [lookupP],
   save_draft_curated_noop _ _ _ _ _ _ _ (by simp [lookupP]) rfl⟩

/-- C3: two domain-tag sequences whose normalized tags form the same
multiset (the same tags up to trimming, case-folding, space-to-underscore
normalization and order) derive the same Key. -/
theorem domain_key_perm_invariant (A B : List String)
    (h : (A.map normalizeTag).Perm (B.map normalizeTag)) :
    _domain_key A = _domain_key B := by
  unfold _domain_key
  have hs : pySorted (A.map normalizeTag) = pySorted (B.map normalizeTag) :=
    List.eq_of_perm_of_sorted
      ((List.perm_insertionSort _ _).trans
        (h.trans (List.perm_insertionSort _ _).symm))
      (List.sorted_insertionSort _ _) (List.sorted_insertionSort _ _)
  rw [hs]

/-- C3 witness: two concretely different spellings and orders of the same
tag set give the same Key. -/
theorem domain_key_perm_invariant_witness :
    (["Housing", " inflation"].map normalizeTag).Perm
      (["inflation  ", "HOUSING"].map normalizeTag) ∧
    _domain_key ["Housing", " inflation"] =
      _domain_key ["inflation  ", "HOUSING"] :=
  ⟨by decide, domain_key_perm_invariant _ _ (by decide)⟩

/-- C7: rollback to a version absent from the Entry's history fails with
`VersionNotFound`, and the library (store) is returned exactly as it was —
the source raises before any mutation and never reaches `_save_library`. -/
theorem rollback_version_not_found (lib : Lib) (domains : List String)
    (v : Nat) (now : String) (e : Entry)
    (hl : lookupP lib (_domain_key domains) = some e)
    (ht : findSnap e.history v = none) :
    rollback lib domains v now = (lib, .error (.VersionNotFound v)) := by
  simp [rollback, hl, ht]

/-- C7 witness: rolling a fresh Entry (empty history) back to version 5
fails and leaves the store unchanged. -/
theorem rollback_version_not_found_witness :
    lookupP [(_domain_key ["x"], baseEntry)] (_domain_key ["x"]) =
      some baseEntry ∧
    findSnap baseEntry.history 5 = none ∧
    rollback [(_domain_key ["x"], baseEntry)] ["x"] 5 "t1" =
      ([(_domain_key ["x"], baseEntry)],
        .error (.VersionNotFound 5)) :=
  ⟨by simp [lookupP], by decide,
   rollback_version_not_found [(_domain_key ["x"], baseEntry)] ["x"] 5 "t1"
     baseEntry (by simp [lookupP]) (by decide)⟩

/-- C2: the claim fails on the code. `rollback` archives the pre-rollback
snapshot without the `[-10:]` trim that `save_draft` and `curate_prompt`
apply, so an Entry whose history already holds the 10-snapshot cap ends up
with 11 snapshots after a successful rollback (and the length grows
without bound under repeated rollbacks). -/
theorem rollback_exceeds_history_cap (lib : Lib) (domains : List String)
    (v : Nat) (now : String) (e : Entry) (target : Snapshot)
    (hl : lookupP lib (_domain_key domains) = some e)
    (hlen : e.history.length = 10)
    (ht : findSnap e.history v = some target) :
    ∃ lib2 e2, rollback lib domains v now = (lib2, Except.ok e2) ∧
      e2.history.length = 11 := by
  simp only [rollback, hl, ht]
  exact ⟨_, _, rfl, by simp [hlen]⟩

/-- C2 witness: an Entry at version 11 whose history holds snapshots of
versions 1..10 (the cap) has 11 history elements after rollback to
version 10. -/
theorem rollback_exceeds_history_cap_witness :
    lookupP [(_domain_key ["x"],
        { baseEntry with version := 11, history := tenSnaps })]
      (_domain_key ["x"]) =
      some { baseEntry with version := 11, history := tenSnaps } ∧
    ({ baseEntry with version := 11, history := tenSnaps } : Entry).history.length = 10 ∧
    findSnap ({ baseEntry with version := 11, history := tenSnaps } : Entry).history 10 =
      some { version := 10, system_prompt := "p", status := "draft", saved_at := "t" } ∧
    ∃ lib2 e2,
      rollback [(_domain_key ["x"],
          { baseEntry with version := 11, history := tenSnaps })]
        ["x"] 10 "t2" = (lib2, Except.ok e2) ∧
      e2.history.length = 11 :=
  ⟨by simp [lookupP], by decide, by decide,
   rollback_exceeds_history_cap
     [(_domain_key ["x"], { baseEntry with version := 11, history := tenSnaps })]
     ["x"] 10 "t2"
     { baseEntry with version := 11, history := tenSnaps }
     { version := 10, system_prompt := "p", status := "draft", saved_at := "t" }
     (by simp [lookupP]) (by decide) (by decide)⟩

/-- C6: rollback to a version present in history (the first matching
snapshot, as the source's loop finds it) restores that snapshot's text and
status and assigns version `old + 1` — strictly greater than the
pre-rollback version and, because archived versions are strictly older
than the live version, never equal to the target version. -/
theorem rollback_restores_and_increments (lib : Lib) (domains : List String)
    (v : Nat) (now : String) (e : Entry) (target : Snapshot)
    (hl : lookupP lib (_domain_key domains) = some e)
    (ht : findSnap e.history v = some target)
    (hb : ∀ s ∈ e.history, s.version < e.version) :
    ∃ lib2 e2, rollback lib domains v now = (lib2, Except.ok e2) ∧
      e2.system_prompt = target.system_prompt ∧
      e2.status = target.status ∧
      e2.version = e.version + 1 ∧
      e.version < e2.version ∧
      e2.version ≠ v := by
  have ht2 : List.find? (fun s => s.version == v) e.history = some target := ht
  have hv : target.version = v := by
    have hp := List.find?_some ht2
    simpa using hp
  have hmem : target ∈ e.history := List.mem_of_find?_eq_some ht2
  have hlt : v < e.version := hv ▸ hb target hmem
  simp only [rollback, ht, hl]
  exact ⟨_, _, rfl, rfl, rfl, rfl,
    (show e.version < e.version + 1 from Nat.lt_succ_self _),
    (show e.version + 1 ≠ v by omega)⟩

/-- C6 witness: a concrete Entry at version 3 with snapshots of versions
1 and 2; rollback to version 1 restores text "p1" and status "draft" and
produces version 4. -/
theorem rollback_restores_and_increments_witness :
    lookupP [(_domain_key ["x"],
        { baseEntry with
          version := 3,
          status := "curated",
          history := [
            { version := 1, system_prompt := "p1", status := "draft", saved_at := "t1" },
            { version := 2, system_prompt := "p2", status := "draft", saved_at := "t2" }] })]
      (_domain_key ["x"]) =
      some { baseEntry with
             version := 3,
             status := "curated",
             history := [
               { version := 1, system_prompt := "p1", status := "draft", saved_at := "t1" },
               { version := 2, system_prompt := "p2", status := "draft", saved_at := "t2" }] } ∧
    ∃ lib2 e2,
      rollback [(_domain_key ["x"],
          { baseEntry with
            version := 3,
            status := "curated",
            history := [
              { version := 1, system_prompt := "p1", status := "draft", saved_at := "t1" },
              { version := 2, system_prompt := "p2", status := "draft", saved_at := "t2" }] })]
        ["x"] 1 "t3" = (lib2, Except.ok e2) ∧
      e2.system_prompt = "p1" ∧ e2.status = "draft" ∧ e2.version = 4 ∧
      (3 : Nat) < e2.version ∧ e2.version ≠ 1 :=
  ⟨by simp [lookupP],
   rollback_restores_and_increments
     [(_domain_key ["x"],
       { baseEntry with
         version := 3,
         status := "curated",
         history := [
           { version := 1, system_prompt := "p1", status := "draft", saved_at := "t1" },
           { version := 2, system_prompt := "p2", status := "draft", saved_at := "t2" }] })]
     ["x"] 1 "t3"
     { baseEntry with
       version := 3,
       status := "curated",
       history := [
         { version := 1, system_prompt := "p1", status := "draft", saved_at := "t1" },
         { version := 2, system_prompt := "p2", status := "draft", saved_at := "t2" }] }
     { version := 1, system_prompt := "p1", status := "draft", saved_at := "t1" }
     (by simp [lookupP]) (by decide) (by decide)⟩

/-- C10: supplying the empty string as the edited text to `curate_prompt`
behaves exactly like supplying no edited text (the source's
`if edited_prompt:` treats `""` as falsy): the Entry becomes curated with
version incremented by one and its text left unchanged. -/
theorem curate_empty_edit (lib : Lib) (domains : List String)
    (curator notes now : String) (e : Entry)
    (hl : lookupP lib (_domain_key domains) = some e) :
    curate_prompt lib domains (some "") curator notes now =
      curate_prompt lib domains none curator notes now ∧
    ∃ lib2 e2,
      curate_prompt lib domains (some "") curator notes now =
        (lib2, Except.ok e2) ∧
      e2.status = "curated" ∧ e2.version = e.version + 1 ∧
      e2.system_prompt = e.system_prompt := by
  constructor
  · simp [curate_prompt, hl, pyTruthyOptStr]
  · simp only [curate_prompt, hl, pyTruthyOptStr]
    exact ⟨_, _, rfl, rfl, rfl, rfl⟩

/-- C10 witness: curating the concrete base Entry with edited text `""`
equals curating it with no edited text, and keeps the text "p0" while
moving to version 2 and status curated. -/
theorem curate_empty_edit_witness :
    lookupP [(_domain_key ["x"], baseEntry)] (_domain_key ["x"]) =
      some baseEntry ∧
    (curate_prompt [(_domain_key ["x"], baseEntry)] ["x"] (some "")
        "alice" "n" "t1" =
      curate_prompt [(_domain_key ["x"], baseEntry)] ["x"] none
        "alice" "n" "t1" ∧
    ∃ lib2 e2,
      curate_prompt [(_domain_key ["x"], baseEntry)] ["x"] (some "")
          "alice" "n" "t1" = (lib2, Except.ok e2) ∧
      e2.status = "curated" ∧ e2.version = baseEntry.version + 1 ∧
      e2.system_prompt = baseEntry.system_prompt) :=
  ⟨by simp [lookupP],
   curate_empty_edit [(_domain_key ["x"], baseEntry)] ["x"] "alice" "n" "t1"
     baseEntry (by simp [lookupP])⟩

/-- C5: one `log_run` call on a draft Entry never changes `version` or
`history`; it sets `status` to `"evolving"` exactly when the resulting
`runs` reaches 20 and the resulting average exceeds `0.6`, and keeps
`status = "draft"` whenever the resulting average is at most `0.6`. -/
theorem log_run_promotion (lib : Lib) (domains : List String) (c : ℚ)
    (regime now : String) (conflicts : List String) (e : Entry)
    (hl : lookupP lib (_domain_key domains) = some e)
    (hd : e.status = "draft") :
    lookupP (log_run lib domains c regime conflicts now)
        (_domain_key domains) =
      some (logRunEntry e c regime conflicts now) ∧
    (logRunEntry e c regime conflicts now).version = e.version ∧
    (logRunEntry e c regime conflicts now).history = e.history ∧
    (logRunEntry e c regime conflicts now).performance.runs =
      e.performance.runs + 1 ∧
    (logRunEntry e c regime conflicts now).performance.avg_confidence =
      newAvg e.performance c ∧
    (e.performance.runs + 1 ≥ 20 → newAvg e.performance c > 3 / 5 →
      (logRunEntry e c regime conflicts now).status = "evolving") ∧
    (newAvg e.performance c ≤ 3 / 5 →
      (logRunEntry e c regime conflicts now).status = "draft") := by
  refine ⟨by simp [log_run, hl, lookupP_insertP_self], ?_, ?_, ?_, ?_, ?_, ?_⟩
  · simp only [logRunEntry]; split <;> rfl
  · simp only [logRunEntry]; split <;> rfl
  · simp only [logRunEntry]; split <;> rfl
  · simp only [logRunEntry]; split <;> rfl
  · intro h1 h2
    simp only [logRunEntry, logRunPerf]
    rw [if_pos ⟨hd, h1, h2⟩]
  · intro hle
    simp only [logRunEntry, logRunPerf]
    rw [if_neg (fun hcon => absurd hcon.2.2 (not_lt.mpr hle))]
    exact hd

/-- C5 witness: a draft Entry with 19 runs at average 1 is promoted to
`evolving` by a 20th run with confidence 1 (resulting average 1 > 0.6),
with version and history untouched. -/
theorem log_run_promotion_witness :
    lookupP [(_domain_key ["x"],
        { baseEntry with
          performance := { freshPerf with runs := 19, avg_confidence := 1 } })]
      (_domain_key ["x"]) =
      some { baseEntry with
             performance := { freshPerf with runs := 19, avg_confidence := 1 } } ∧
    ({ baseEntry with
       performance := { freshPerf with runs := 19, avg_confidence := 1 } } : Entry).status = "draft" ∧
    (logRunEntry
        { baseEntry with
          performance := { freshPerf with runs := 19, avg_confidence := 1 } }
        1 "bull" [] "t1").version = 1 ∧
    (logRunEntry
        { baseEntry with
          performance := { freshPerf with runs := 19, avg_confidence := 1 } }
        1 "bull" [] "t1").history = ([] : List Snapshot) ∧
    (logRunEntry
        { baseEntry with
          performance := { freshPerf with runs := 19, avg_confidence := 1 } }
        1 "bull" [] "t1").status = "evolving" := by
  have hl : lookupP [(_domain_key ["x"],
      { baseEntry with
        performance := { freshPerf with runs := 19, avg_confidence := 1 } })]
      (_domain_key ["x"]) =
      some { baseEntry with
             performance := { freshPerf with runs := 19, avg_confidence := 1 } } := by
    simp [lookupP]
  have h := log_run_promotion
    [(_domain_key ["x"],
      { baseEntry with
        performance := { freshPerf with runs := 19, avg_confidence := 1 } })]
    ["x"] 1 "bull" "t1" []
    { baseEntry with
      performance := { freshPerf with runs := 19, avg_confidence := 1 } }
    hl rfl
  refine ⟨hl, rfl, ?_, ?_, ?_⟩
  · have := h.2.1
    simpa [baseEntry] using this
  · have := h.2.2.1
    simpa [baseEntry] using this
  · exact h.2.2.2.2.2.1 (by norm_num) (by norm_num [newAvg, freshPerf])

/-- Auxiliary invariant for C4: over a sequence of `log_run` calls, `runs`
counts the calls and `avg_confidence * runs` accumulates the confidences. -/
theorem log_run_fold_avg (domains : List String) (regime now : String)
    (conflicts : List String) :
    ∀ (cs : List ℚ) (lib : Lib) (e : Entry),
      lookupP lib (_domain_key domains) = some e →
      ∃ e2,
        lookupP (log_run_fold lib domains cs regime conflicts now)
            (_domain_key domains) = some e2 ∧
        e2.performance.runs = e.performance.runs + cs.length ∧
        e2.performance.avg_confidence * (e2.performance.runs : ℚ) =
          e.performance.avg_confidence * (e.performance.runs : ℚ) + cs.sum := by
  intro cs
  induction cs with
  | nil =>
      intro lib e hl
      exact ⟨e, by simpa [log_run_fold] using hl, by simp, by simp⟩
  | cons c cs ih =>
      intro lib e hl
      have h1 : lookupP (log_run lib domains c regime conflicts now)
          (_domain_key domains) =
          some (logRunEntry e c regime conflicts now) := by
        simp [log_run, hl, lookupP_insertP_self]
      obtain ⟨e2, h2, hruns, havg⟩ :=
        ih (log_run lib domains c regime conflicts now) _ h1
      have hre : (logRunEntry e c regime conflicts now).performance.runs =
          e.performance.runs + 1 := by
        simp only [logRunEntry]; split <;> rfl
      have hae : (logRunEntry e c regime conflicts now).performance.avg_confidence =
          newAvg e.performance c := by
        simp only [logRunEntry]; split <;> rfl
      refine ⟨e2, by simpa [log_run_fold] using h2, ?_, ?_⟩
      · rw [hruns, hre, List.length_cons]
        omega
      · rw [havg, hae, hre, newAvg_mul, List.sum_cons]
        ring

/-- C4: starting from a freshly created Entry (zero runs, zero average),
`n` sequential `log_run` calls with confidences `cs` leave
`avg_confidence` equal to the arithmetic mean of `cs` (exactly, in the
exact-rational embedding of the source's float arithmetic). -/
theorem log_run_mean (lib : Lib) (domains : List String) (cs : List ℚ)
    (regime now : String) (conflicts : List String) (e : Entry)
    (hl : lookupP lib (_domain_key domains) = some e)
    (h0 : e.performance.runs = 0)
    (ha : e.performance.avg_confidence = 0)
    (hcs : cs ≠ []) :
    ∃ e2,
      lookupP (log_run_fold lib domains cs regime conflicts now)
          (_domain_key domains) = some e2 ∧
      e2.performance.runs = cs.length ∧
      e2.performance.avg_confidence = cs.sum / (cs.length : ℚ) := by
  obtain ⟨e2, h2, hruns, havg⟩ :=
    log_run_fold_avg domains regime now conflicts cs lib e hl
  rw [h0, Nat.zero_add] at hruns
  rw [h0, ha] at havg
  simp only [Nat.cast_zero, zero_mul, zero_add] at havg
  have hn : ((cs.length : ℚ)) ≠ 0 :=
    Nat.cast_ne_zero.mpr (List.length_pos.mpr hcs).ne'
  refine ⟨e2, h2, hruns, ?_⟩
  rw [eq_div_iff hn, ← hruns]
  exact havg

/-- C4 witness: two runs with confidences 1/2 and 1 on the fresh base
Entry give `runs = 2` and `avg_confidence = (1/2 + 1) / 2`. -/
theorem log_run_mean_witness :
    lookupP [(_domain_key ["x"], baseEntry)] (_domain_key ["x"]) =
      some baseEntry ∧
    baseEntry.performance.runs = 0 ∧
    baseEntry.performance.avg_confidence = 0 ∧
    ∃ e2,
      lookupP (log_run_fold [(_domain_key ["x"], baseEntry)] ["x"]
          [1 / 2, 1] "bull" [] "t1") (_domain_key ["x"]) = some e2 ∧
      e2.performance.runs = ([1 / 2, 1] : List ℚ).length ∧
      e2.performance.avg_confidence =
        ([1 / 2, 1] : List ℚ).sum / (([1 / 2, 1] : List ℚ).length : ℚ) :=
  ⟨by simp [lookupP], rfl, rfl,
   log_run_mean [(_domain_key ["x"], baseEntry)] ["x"] [1 / 2, 1] "bull" "t1"
     [] baseEntry (by simp [lookupP]) rfl rfl (by simp)⟩

/-- C8 counterexample: the claim as stated is false. `entryC8` has its
curation stamps set (`curated_at = "t1"`, `curated_by = "alice"`) — the
state a curated Entry reaches after rollback to a draft snapshot, since
rollback restores `status` without touching the stamps — yet a subsequent
`save_draft` on its Key returns an Entry with both stamps reset to `None`
(source lines 145-146 build the overwriting draft with
`"curated_at": None, "curated_by": None`). -/
theorem save_draft_clears_curated_fields :
    entryC8.curated_at = some "t1" ∧
    entryC8.curated_by = some "alice" ∧
    lookupP [(_domain_key ["x"], entryC8)] (_domain_key ["x"]) =
      some entryC8 ∧
    (save_draft [(_domain_key ["x"], entryC8)] ["x"] "new" "ui" "auto"
        "t2").2.curated_at = none ∧
    (save_draft [(_domain_key ["x"], entryC8)] ["x"] "new" "ui" "auto"
        "t2").2.curated_by = none := by
  refine ⟨rfl, rfl, by simp [lookupP], ?_, ?_⟩ <;>
    simp [save_draft, lookupP, entryC8, baseEntry]

/-- C8 amended: `curated_at`/`curated_by` are set only by curation and are
never changed by `log_run` or `rollback`, nor by `save_draft` on a curated
Entry (a no-op); but a `save_draft` that overwrites a non-curated Entry
resets both stamps to `None`. -/
theorem curated_fields_frame (lib : Lib) (domains : List String)
    (e : Entry) (c : ℚ) (regime : String) (conflicts : List String)
    (v : Nat) (sp ui gb now : String) (lib2 : Lib) (e2 : Entry)
    (hl : lookupP lib (_domain_key domains) = some e) :
    (lookupP (log_run lib domains c regime conflicts now)
        (_domain_key domains) =
        some (logRunEntry e c regime conflicts now) ∧
      (logRunEntry e c regime conflicts now).curated_at = e.curated_at ∧
      (logRunEntry e c regime conflicts now).curated_by = e.curated_by) ∧
    (rollback lib domains v now = (lib2, Except.ok e2) →
      e2.curated_at = e.curated_at ∧ e2.curated_by = e.curated_by) ∧
    (e.status = "curated" → save_draft lib domains sp ui gb now = (lib, e)) ∧
    (e.status ≠ "curated" →
      (save_draft lib domains sp ui gb now).2.curated_at = none ∧
      (save_draft lib domains sp ui gb now).2.curated_by = none) := by
  refine ⟨⟨by simp [log_run, hl, lookupP_insertP_self], ?_, ?_⟩, ?_, ?_, ?_⟩
  · simp only [logRunEntry]; split <;> rfl
  · simp only [logRunEntry]; split <;> rfl
  · intro h
    cases hf : findSnap e.history v with
    | none => simp [rollback, hl, hf] at h
    | some target =>
        simp only [rollback, hl, hf] at h
        injection h with h1 h2
        injection h2 with h2
        subst h2
        exact ⟨rfl, rfl⟩
  · intro hc
    simp [save_draft, hl, hc]
  · intro hc
    constructor <;> simp [save_draft, hl, hc]

/-- C8 amended witness: concrete instantiation on `entryC8` (a draft Entry
with both stamps set): `log_run` keeps the stamps, and `save_draft`
resets them. -/
theorem curated_fields_frame_witness :
    lookupP [(_domain_key ["x"], entryC8)] (_domain_key ["x"]) =
      some entryC8 ∧
    ((lookupP (log_run [(_domain_key ["x"], entryC8)] ["x"] 1 "bull" [] "t3")
        (_domain_key ["x"]) =
        some (logRunEntry entryC8 1 "bull" [] "t3") ∧
      (logRunEntry entryC8 1 "bull" [] "t3").curated_at = entryC8.curated_at ∧
      (logRunEntry entryC8 1 "bull" [] "t3").curated_by = entryC8.curated_by) ∧
    (rollback [(_domain_key ["x"], entryC8)] ["x"] 1 "t3" =
        ([], Except.ok baseEntry) →
      baseEntry.curated_at = entryC8.curated_at ∧
      baseEntry.curated_by = entryC8.curated_by) ∧
    (entryC8.status = "curated" →
      save_draft [(_domain_key ["x"], entryC8)] ["x"] "sp" "ui" "auto" "t3" =
        ([(_domain_key ["x"], entryC8)], entryC8)) ∧
    (entryC8.status ≠ "curated" →
      (save_draft [(_domain_key ["x"], entryC8)] ["x"] "sp" "ui" "auto"
          "t3").2.curated_at = none ∧
      (save_draft [(_domain_key ["x"], entryC8)] ["x"] "sp" "ui" "auto"
          "t3").2.curated_by = none)) :=
  ⟨by simp [lookupP],
   curated_fields_frame [(_domain_key ["x"], entryC8)] ["x"] entryC8 1
     "bull" [] 1 "sp" "ui" "auto" "t3" [] baseEntry (by simp [lookupP])⟩

/-- C9: the claim fails on the code. `_save_library` opens the target file
itself with mode "w" — truncating it in place — and streams the document
into it; there is no temporary file and no rename. A crash right after the
open (trace prefix of length 2) leaves the target truncated: neither the
old document nor the new one, i.e. a partially-written file, so the write
path is not an atomic replace. The full trace does overwrite the previous
state completely. -/
theorem save_library_not_crash_safe :
    FsOp.openTrunc LIBRARY_PATH ∈ _save_library_trace [("k0", baseEntry)] ∧
    runFsTarget LIBRARY_PATH (FileState.doc [])
        ((_save_library_trace [("k0", baseEntry)]).take 2) =
      FileState.truncated ∧
    runFsTarget LIBRARY_PATH (FileState.doc [])
        (_save_library_trace [("k0", baseEntry)]) =
      FileState.doc [("k0", baseEntry)] ∧
    ¬ crashSafeReplace LIBRARY_PATH (FileState.doc [])
        (FileState.doc [("k0", baseEntry)])
        (_save_library_trace [("k0", baseEntry)]) := by
  refine ⟨by decide, by decide, by decide, fun h => ?_⟩
  rcases h 2 with h2 | h2 <;> revert h2 <;> decide

/-! ### Supplementary invariant: archived versions stay strictly below the
live version (this is the reachable-state fact behind the hypothesis of
the rollback theorem for C6). -/

/-- Every archived snapshot's version is strictly below the Entry's
current version. -/
def histBound (e : Entry) : Prop :=
  ∀ s ∈ e.history, s.version < e.version

theorem histBound_save_draft (lib : Lib) (domains : List String)
    (sp ui gb now : String)
    (h : ∀ e, lookupP lib (_domain_key domains) = some e → histBound e) :
    histBound (save_draft lib domains sp ui gb now).2 := by
  cases hl : lookupP lib (_domain_key domains) with
  | none =>
      simp only [save_draft, hl]
      intro s hs
      simp at hs
  | some e =>
      have hb := h e hl
      by_cases hc : e.status = "curated"
      · simpa [save_draft, hl, hc] using hb
      · simp only [save_draft, hl]
        rw [if_neg hc]
        intro s hs
        rcases List.mem_append.mp (mem_lastN hs) with h1 | h1
        · exact Nat.lt_succ_of_lt (hb s h1)
        · have h2 := List.mem_singleton.mp h1
          subst h2
          exact Nat.lt_succ_self _

theorem histBound_curate (lib : Lib) (domains : List String)
    (ep : Option String) (curator notes now : String) (e : Entry)
    (lib2 : Lib) (e2 : Entry)
    (hl : lookupP lib (_domain_key domains) = some e)
    (hb : histBound e)
    (h : curate_prompt lib domains ep curator notes now =
      (lib2, Except.ok e2)) :
    histBound e2 := by
  cases hpt : pyTruthyOptStr ep <;>
    · simp only [curate_prompt, hl, hpt, Bool.false_eq_true, if_false,
        if_true, reduceIte] at h
      injection h with h1 h2
      injection h2 with h2
      subst h2
      intro s hs
      rcases List.mem_append.mp (mem_lastN hs) with h3 | h3
      · exact Nat.lt_succ_of_lt (hb s h3)
      · have h4 := List.mem_singleton.mp h3
        subst h4
        exact Nat.lt_succ_self _

theorem histBound_log_run (e : Entry) (c : ℚ) (regime : String)
    (conflicts : List String) (now : String) (hb : histBound e) :
    histBound (logRunEntry e c regime conflicts now) := by
  intro s hs
  have hh : (logRunEntry e c regime conflicts now).history = e.history := by
    simp only [logRunEntry]; split <;> rfl
  have hv : (logRunEntry e c regime conflicts now).version = e.version := by
    simp only [logRunEntry]; split <;> rfl
  rw [hh] at hs
  rw [hv]
  exact hb s hs

theorem histBound_rollback (lib : Lib) (domains : List String) (v : Nat)
    (now : String) (e : Entry) (lib2 : Lib) (e2 : Entry)
    (hl : lookupP lib (_domain_key domains) = some e)
    (hb : histBound e)
    (h : rollback lib domains v now = (lib2, Except.ok e2)) :
    histBound e2 := by
  cases hf : findSnap e.history v with
  | none => simp [rollback, hl, hf] at h
  | some target =>
      simp only [rollback, hl, hf] at h
      injection h with h1 h2
      injection h2 with h2
      subst h2
      intro s hs
      rcases List.mem_append.mp hs with h3 | h3
      · exact Nat.lt_succ_of_lt (hb s h3)
      · have h4 := List.mem_singleton.mp h3
        subst h4
        exact Nat.lt_succ_self _

end PromptLifecycle
